import Mathlib

/-!
Verification of the momentum stock screener core (`screener.py`): the
indicator engine (`compute_indicators`), the four-gate filter
(`apply_gatekeeper` with its inner `build_rejection_reasons`), and the
ranker (`rank_and_select`).  Prices and returns are modelled as rationals;
pandas' floating NaN missing-value marker is modelled as `Option.none` and
every NaN comparison rule of pandas is reproduced explicitly at the point
where the source performs the comparison.
-/

namespace Screener

/-! ### Constants (screener.py lines 44-53) -/

def TRADING_DAYS_6M : ℕ := 126

def TRADING_DAYS_9M : ℕ := 189

def TRADING_DAYS_12M : ℕ := 252

def MIN_TRADING_DAYS_REQUIRED : ℕ := 300

def PROXIMITY_TO_HIGH_THRESHOLD : ℚ := mkRat 3 4

def UP_DAYS_PCT_THRESHOLD : ℚ := 40

def ONE_YEAR_RETURN_THRESHOLD : ℚ := mkRat 13 2

/-! ### Data model -/

/-- One daily bar of a price series.  Only the two columns the core reads
(`Adj Close` and `Close`) are modelled; a missing (NaN) cell is `none`. -/
structure Bar where
  adjClose : Option ℚ
  close : Option ℚ
  deriving DecidableEq

/-- The price history of one symbol: the rows of
`df.xs(ticker, level="Ticker")` in date order. -/
structure PriceSeries where
  ticker : String
  bars : List Bar
  deriving DecidableEq

/-- One row of the DataFrame produced by `compute_indicators`.  Indicator
cells that the insufficient-data branch never writes (NaN in the frame)
are `none`. -/
structure IndRecord where
  ticker : String
  current_price : Option ℚ
  ema100 : Option ℚ
  ema200 : Option ℚ
  high_52w : Option ℚ
  within_25_pct_high : Option Bool
  up_days_pct_6m : Option ℚ
  one_year_return_unconventional : Option ℚ
  one_year_return_standard : Option ℚ
  return_6m : Option ℚ
  return_9m : Option ℚ
  return_12m : Option ℚ
  price_6m_ago : Option ℚ
  price_9m_ago : Option ℚ
  price_12m_ago : Option ℚ
  trading_days : ℕ
  data_sufficient : Bool
  rejection_reasons : String
  deriving DecidableEq

/-! ### Indicator engine (screener.py lines 479-628) -/

/-- One step of `ewm(span=N, adjust=False).mean()`:
`ema[i] = alpha * price[i] + (1 - alpha) * ema[i-1]`. -/
def emaStep (alpha prev x : ℚ) : ℚ := alpha * x + (1 - alpha) * prev

/-- Last value of the exponential moving average with decay
`alpha = 2 / (span + 1)`, seeded at the first observation. -/
def emaLast (span : ℕ) (xs : List ℚ) : Option ℚ :=
  match xs with
  | [] => none
  | p :: ps => some (ps.foldl (emaStep (2 / ((span : ℚ) + 1))) p)

/-- Maximum of a list of prices (`none` on the empty list). -/
def listMax : List ℚ → Option ℚ
  | [] => none
  | x :: xs => some (xs.foldl max x)

/-- `adj_close.iloc[-n] if len(adj_close) >= n else np.nan`
(screener.py lines 571-573): the `n`-th element from the end. -/
def priceAgo (n : ℕ) (xs : List ℚ) : Option ℚ :=
  if n ≤ xs.length then xs[xs.length - n]? else none

/-- `((current / past) - 1) * 100` lifted over missing values
(screener.py lines 576-578). -/
def pctReturn (current : Option ℚ) (past : Option ℚ) : Option ℚ :=
  Option.map₂ (fun c p => (c / p - 1) * 100) current past

/-- `up_days_pct_6m` (screener.py lines 563-568): over the trailing 126
closes, the percentage of strictly increasing adjacent pairs out of 125. -/
def upDaysPct6m (close : List ℚ) : Option ℚ :=
  if TRADING_DAYS_6M ≤ close.length then
    let last6m := close.drop (close.length - TRADING_DAYS_6M)
    let upDays := (last6m.zip last6m.tail).countP (fun p => decide (p.1 < p.2))
    some ((upDays : ℚ) / ((TRADING_DAYS_6M : ℚ) - 1) * 100)
  else none

/-- `within_25_pct_high` (screener.py line 560):
`current_price >= 0.75 * high_52w`. -/
def within25 (currentPrice high52w : ℚ) : Bool :=
  decide (currentPrice ≥ PROXIMITY_TO_HIGH_THRESHOLD * high52w)

/-- The record emitted by the insufficient-data branch (screener.py lines
538-543): only the ticker, the row count, `data_sufficient=False` and the
fixed reason string; every indicator cell stays unwritten (NaN). -/
def insufficient_record (s : PriceSeries) : IndRecord :=
  { ticker := s.ticker
    current_price := none, ema100 := none, ema200 := none
    high_52w := none, within_25_pct_high := none, up_days_pct_6m := none
    one_year_return_unconventional := none, one_year_return_standard := none
    return_6m := none, return_9m := none, return_12m := none
    price_6m_ago := none, price_9m_ago := none, price_12m_ago := none
    trading_days := s.bars.length
    data_sufficient := false
    rejection_reasons := "Insufficient data (< 300 trading days)" }

/-- The body of the per-ticker loop of `compute_indicators`
(screener.py lines 524-614), producing one `IndRecord` from one series. -/
def compute_indicators_one (s : PriceSeries) : IndRecord :=
  let trading_days := s.bars.length
  let data_sufficient := decide (trading_days ≥ MIN_TRADING_DAYS_REQUIRED)
  let adj_close := s.bars.filterMap (fun b => b.adjClose)
  let close := s.bars.filterMap (fun b => b.close)
  if adj_close.length < MIN_TRADING_DAYS_REQUIRED then
    insufficient_record s
  else
    let current_price := adj_close.getLast?
    let high_52w :=
      if TRADING_DAYS_12M ≤ adj_close.length then
        listMax (adj_close.drop (adj_close.length - TRADING_DAYS_12M))
      else listMax adj_close
    let price_6m_ago := priceAgo TRADING_DAYS_6M adj_close
    let price_9m_ago := priceAgo TRADING_DAYS_9M adj_close
    let price_12m_ago := priceAgo TRADING_DAYS_12M adj_close
    let return_6m := pctReturn current_price price_6m_ago
    let return_9m := pctReturn current_price price_9m_ago
    let return_12m := pctReturn current_price price_12m_ago
    { ticker := s.ticker
      current_price := current_price
      ema100 := emaLast 100 adj_close
      ema200 := emaLast 200 adj_close
      high_52w := high_52w
      within_25_pct_high := Option.map₂ within25 current_price high_52w
      up_days_pct_6m := upDaysPct6m close
      one_year_return_unconventional :=
        match current_price, price_12m_ago with
        | some c, some p => if p - 1 ≠ 0 then some (c / (p - 1) * 100) else none
        | _, _ => none
      one_year_return_standard := return_12m
      return_6m := return_6m
      return_9m := return_9m
      return_12m := return_12m
      price_6m_ago := price_6m_ago
      price_9m_ago := price_9m_ago
      price_12m_ago := price_12m_ago
      trading_days := trading_days
      data_sufficient := data_sufficient
      rejection_reasons := "" }

/-- `compute_indicators`: one record per ticker, in input order. -/
def compute_indicators (series : List PriceSeries) : List IndRecord :=
  series.map compute_indicators_one

/-! ### Gatekeeper (screener.py lines 635-772)

pandas comparison semantics reproduced below: a comparison against a NaN
cell is `False`; `.astype(bool)` maps NaN to `True` (a non-zero float is
truthy); gate columns are initialised to `False` and assigned only on the
`data_sufficient` mask, so an insufficient row keeps all gates `False`.
The early-return branch taken when no row is sufficient (lines 684-690)
produces exactly the same rows as the general path restricted to
insufficient rows, so a single per-row evaluation models both paths. -/

/-- `a >= b` where either side may be NaN (pandas: NaN comparisons are
`False`). -/
def optGe : Option ℚ → Option ℚ → Bool
  | some a, some b => decide (a ≥ b)
  | _, _ => false

/-- `x > c` where `x` may be NaN. -/
def optGtC (x : Option ℚ) (c : ℚ) : Bool :=
  match x with
  | some v => decide (v > c)
  | none => false

/-- `x >= c` where `x` may be NaN. -/
def optGeC (x : Option ℚ) (c : ℚ) : Bool :=
  match x with
  | some v => decide (v ≥ c)
  | none => false

/-- `.astype(bool)` on a cell that is either a bool or NaN (NaN is a
non-zero float, hence truthy). -/
def astype_bool : Option Bool → Bool
  | some b => b
  | none => true

/-- The column name selected for Gate D (screener.py lines 711-719). -/
def return_col (useStd : Bool) : String :=
  if useStd then "one_year_return_standard" else "one_year_return_unconventional"

/-- The value of the column selected for Gate D. -/
def selected_return (useStd : Bool) (r : IndRecord) : Option ℚ :=
  if useStd then r.one_year_return_standard else r.one_year_return_unconventional

/-- An `IndRecord` together with the five gate columns added by
`apply_gatekeeper`; the inherited `rejection_reasons` field holds the
finalized reason string. -/
structure GateResult extends IndRecord where
  gate_A_trend : Bool
  gate_B_proximity : Bool
  gate_C_consistency : Bool
  gate_D_performance : Bool
  gate_pass : Bool
  deriving DecidableEq

/-- Fixed-point decimal rendering of a rational with `prec` digits, ties
to even — the model of Python `format(x, '.1f')`-style formatting used in
the reason strings. -/
def fmtFixed (prec : ℕ) (q : ℚ) : String :=
  let scaled : ℤ :=
    let shifted := q * ((10 : ℚ) ^ prec)
    let fl := ⌊shifted⌋
    if shifted - fl < 1 / 2 then fl
    else if shifted - fl > 1 / 2 then fl + 1
    else if fl % 2 = 0 then fl else fl + 1
  let n := scaled.natAbs
  let ip := n / 10 ^ prec
  let fp := n % 10 ^ prec
  let fpDigits := toString fp
  let pad := String.mk (List.replicate (prec - fpDigits.length) '0')
  let sign := if scaled < 0 then "-" else ""
  if prec = 0 then sign ++ toString ip
  else sign ++ toString ip ++ "." ++ pad ++ fpDigits

/-- Formatting of a possibly-NaN cell (Python renders NaN as `"nan"`). -/
def fmtOpt (prec : ℕ) : Option ℚ → String
  | none => "nan"
  | some q => fmtFixed prec q

/-- Gate A clause (screener.py line 740). -/
def clause_A : String := "Failed Trend Alignment (price < EMA100 or EMA100 < EMA200)"

/-- Gate B clause (screener.py line 742). -/
def clause_B : String := "Failed Proximity to High (price < 75% of 52w high)"

/-- Gate C clause (screener.py line 744). -/
def clause_C (r : IndRecord) : String :=
  "Failed Consistency (up_days=" ++ fmtOpt 1 r.up_days_pct_6m ++ "% <= 40%)"

/-- Gate D clause (screener.py lines 746-747). -/
def clause_D (useStd : Bool) (r : IndRecord) : String :=
  "Failed Performance (" ++ return_col useStd ++ "="
    ++ fmtOpt 2 (selected_return useStd r) ++ "% < 6.5%)"

/-- `"; ".join(reasons)` (Python `str.join` semantics). -/
def joinSep (sep : String) : List String → String
  | [] => ""
  | [x] => x
  | x :: y :: t => x ++ sep ++ joinSep sep (y :: t)

/-- Gate A condition on a sufficient row (screener.py lines 694-697):
`current_price >= ema100 AND ema100 >= ema200`. -/
def gateA (r : IndRecord) : Bool :=
  optGe r.current_price r.ema100 && optGe r.ema100 r.ema200

/-- Gate B condition on a sufficient row (screener.py line 701):
`within_25_pct_high.astype(bool)`. -/
def gateB (r : IndRecord) : Bool := astype_bool r.within_25_pct_high

/-- Gate C condition on a sufficient row (screener.py lines 705-707):
`up_days_pct_6m > 40` (strict). -/
def gateC (r : IndRecord) : Bool := optGtC r.up_days_pct_6m UP_DAYS_PCT_THRESHOLD

/-- Gate D condition on a sufficient row (screener.py lines 721-723):
selected one-year return `>= 6.5`. -/
def gateD (useStd : Bool) (r : IndRecord) : Bool :=
  optGeC (selected_return useStd r) ONE_YEAR_RETURN_THRESHOLD

/-- `build_rejection_reasons` (screener.py lines 734-749) applied to a row
carrying its four gate flags. -/
def build_rejection_reasons (useStd : Bool) (r : IndRecord)
    (gA gB gC gD : Bool) : String :=
  if r.data_sufficient = false then
    if r.rejection_reasons = "" then "Insufficient data" else r.rejection_reasons
  else
    let reasons : List String :=
      (if gA then [] else [clause_A]) ++
      (if gB then [] else [clause_B]) ++
      (if gC then [] else [clause_C r]) ++
      (if gD then [] else [clause_D useStd r])
    joinSep "; " reasons

/-- The per-row evaluation of `apply_gatekeeper` (screener.py lines
672-751): gate flags (assigned only under the `data_sufficient` mask,
hence the conjunction with the flag), aggregate `gate_pass`, finalized
reason string. -/
def evalGates (useStd : Bool) (r : IndRecord) : GateResult :=
  let gA := r.data_sufficient && gateA r
  let gB := r.data_sufficient && gateB r
  let gC := r.data_sufficient && gateC r
  let gD := r.data_sufficient && gateD useStd r
  let pass := r.data_sufficient && (gA && gB && gC && gD)
  { toIndRecord :=
      { r with rejection_reasons := build_rejection_reasons useStd r gA gB gC gD }
    gate_A_trend := gA
    gate_B_proximity := gB
    gate_C_consistency := gC
    gate_D_performance := gD
    gate_pass := pass }

/-- `apply_gatekeeper`: evaluate every row and split into
`(shortlist, rejected)` by `gate_pass` (screener.py lines 753-755). -/
def apply_gatekeeper (records : List IndRecord) (useStd : Bool) :
    List GateResult × List GateResult :=
  let results := records.map (evalGates useStd)
  (results.filter (fun g => g.gate_pass),
   results.filter (fun g => !g.gate_pass))

/-! ### Ranker (screener.py lines 779-837)

`rank_and_select` reads only the three return columns of each shortlist
row (plus the row identity); `ShortRow` is that projection of a
gate-passing row.  `sort_values` on several columns uses `numpy.lexsort`,
a stable sort, modelled by `List.insertionSort` on the lexicographic
non-strict key order.  An empty shortlist is returned as-is, without the
four ranking columns ever being added — the `Sum` distinguishes the
column-free frame (`inl`) from the ranked frame (`inr`). -/

/-- A shortlist row as consumed by `rank_and_select`. -/
structure ShortRow where
  ticker : String
  return_6m : ℚ
  return_9m : ℚ
  return_12m : ℚ
  deriving DecidableEq

/-- A shortlist row with the four ranking columns added. -/
structure RankedRow extends ShortRow where
  rank_6m : ℚ
  rank_9m : ℚ
  rank_12m : ℚ
  final_rank : ℚ
  deriving DecidableEq

/-- `Series.rank(method='min', ascending=False)` evaluated at one value:
ties share the lowest rank number, i.e. `1 + count(strictly greater)`. -/
def rankMinDesc (vals : List ℚ) (x : ℚ) : ℚ :=
  1 + ((vals.countP (fun y => decide (x < y)) : ℕ) : ℚ)

/-- The rank columns a row of shortlist `l` receives
(screener.py lines 814-820): `final_rank = rank_6m + rank_12m + 0 * rank_9m`. -/
def addRanks (l : List ShortRow) (r : ShortRow) : RankedRow :=
  { toShortRow := r
    rank_6m := rankMinDesc (l.map (fun s => s.return_6m)) r.return_6m
    rank_9m := rankMinDesc (l.map (fun s => s.return_9m)) r.return_9m
    rank_12m := rankMinDesc (l.map (fun s => s.return_12m)) r.return_12m
    final_rank := rankMinDesc (l.map (fun s => s.return_6m)) r.return_6m +
      rankMinDesc (l.map (fun s => s.return_12m)) r.return_12m +
      0 * rankMinDesc (l.map (fun s => s.return_9m)) r.return_9m }

/-- The four rank-column assignments of screener.py lines 814-820. -/
def annotate (l : List ShortRow) : List RankedRow :=
  l.map (addRanks l)

/-- The `sort_values` key of screener.py lines 824-827, as a lexicographic
triple: `final_rank` ascending, then `return_12m` descending, then
`return_6m` descending. -/
def sortKey (r : RankedRow) : ℚ ×ₗ (ℚ ×ₗ ℚ) :=
  toLex (r.final_rank, toLex (-r.return_12m, -r.return_6m))

/-- Row `a` may be placed no later than row `b` by the sort. -/
def rowLe (a b : RankedRow) : Prop := sortKey a ≤ sortKey b

instance : DecidableRel rowLe := fun a b =>
  inferInstanceAs (Decidable (sortKey a ≤ sortKey b))

instance : IsTotal RankedRow rowLe := ⟨fun a b => le_total (sortKey a) (sortKey b)⟩

instance : IsTrans RankedRow rowLe := ⟨fun _ _ _ hab hbc => le_trans hab hbc⟩

/-- `DataFrame.head(n)`: the first `n` rows for `n ≥ 0`, and all rows but
the last `|n|` for negative `n`. -/
def df_head (n : ℤ) (l : List RankedRow) : List RankedRow :=
  if 0 ≤ n then l.take n.toNat else l.take (l.length - (-n).toNat)

/-- `rank_and_select` (screener.py lines 779-837): an empty shortlist is
returned unchanged (`inl`, no ranking columns); otherwise the rank
columns are assigned, the rows stably sorted by the lexicographic key,
and `head(top_n)` taken (`inr`). -/
def rank_and_select (shortlist : List ShortRow) (top_n : ℤ) :
    List ShortRow ⊕ List RankedRow :=
  if shortlist.length = 0 then Sum.inl shortlist
  else Sum.inr (df_head top_n ((annotate shortlist).insertionSort rowLe))

/-- Feeding the output of `rank_and_select` back into itself: the second
call reads only the return columns (the rank columns are overwritten), so
a ranked frame re-enters as its `ShortRow` projection. -/
def reapply (out : List ShortRow ⊕ List RankedRow) (top_n : ℤ) :
    List ShortRow ⊕ List RankedRow :=
  match out with
  | Sum.inl l => rank_and_select l top_n
  | Sum.inr l => rank_and_select (l.map (fun r => r.toShortRow)) top_n

/-! ### Concrete inputs used by counterexamples and witnesses -/

/-- A 300-bar series whose adjusted closes are `0, 1, ..., 299`. -/
def rampSeries : PriceSeries :=
  { ticker := "RAMP"
    bars := (List.range 300).map (fun i => { adjClose := some (i : ℚ), close := some (i : ℚ) }) }

/-- A 300-row series whose first bar has a missing (NaN) adjusted close. -/
def gapSeries : PriceSeries :=
  { ticker := "GAP"
    bars := { adjClose := none, close := none } ::
      (List.range 299).map (fun _ => { adjClose := some 1, close := some 1 }) }

/-! ### Shared facts about the two branches of `compute_indicators_one` -/

/-- The emitted `data_sufficient` flag is determined by the count of
non-missing adjusted closes (the `len(adj_close) < 300` test on line 537),
because in the full branch `trading_days ≥ len(adj_close) ≥ 300` makes the
line-531 flag automatically true. -/
theorem compute_one_sufficient_iff (s : PriceSeries) :
    (compute_indicators_one s).data_sufficient = true ↔
      MIN_TRADING_DAYS_REQUIRED ≤ (s.bars.filterMap (fun b => b.adjClose)).length := by
  unfold compute_indicators_one
  by_cases h : (s.bars.filterMap (fun b => b.adjClose)).length < MIN_TRADING_DAYS_REQUIRED
  · simp only [if_pos h]
    simp [insufficient_record]
    omega
  · simp only [if_neg h]
    have hlen : MIN_TRADING_DAYS_REQUIRED ≤ s.bars.length :=
      le_trans (le_of_not_lt h) (s.bars.length_filterMap_le _)
    simp [ge_iff_le, hlen]
    omega

/-- A record with an insufficient adjusted-close count is the minimal
insufficient record. -/
theorem compute_one_insufficient (s : PriceSeries)
    (h : (s.bars.filterMap (fun b => b.adjClose)).length < MIN_TRADING_DAYS_REQUIRED) :
    compute_indicators_one s = insufficient_record s := by
  unfold compute_indicators_one
  simp only [if_pos h]

/-- In the sufficient branch, each `price_<N>m_ago` field is
`priceAgo n adj_close`. -/
theorem compute_one_price_ago_eq (s : PriceSeries)
    (h : MIN_TRADING_DAYS_REQUIRED ≤ (s.bars.filterMap (fun b => b.adjClose)).length) :
    (compute_indicators_one s).price_6m_ago =
        priceAgo TRADING_DAYS_6M (s.bars.filterMap (fun b => b.adjClose)) ∧
    (compute_indicators_one s).price_9m_ago =
        priceAgo TRADING_DAYS_9M (s.bars.filterMap (fun b => b.adjClose)) ∧
    (compute_indicators_one s).price_12m_ago =
        priceAgo TRADING_DAYS_12M (s.bars.filterMap (fun b => b.adjClose)) := by
  unfold compute_indicators_one
  simp only [if_neg (not_lt.mpr h)]
  exact ⟨trivial, trivial, trivial⟩

/-! ### C4 -/

/--
C4 (amended).  The emitted `data_sufficient` flag is `True` exactly when
the series has at least 300 non-missing adjusted closes — not when
`trading_days` (the raw row count) is at least 300 — and whenever the
flag is `False` the emitted record is exactly the minimal record
{ticker, trading_days, data_sufficient=False, fixed reason}, with every
further indicator cell left unwritten.
-/
theorem data_sufficient_iff_adj_count (s : PriceSeries) :
    ((compute_indicators_one s).data_sufficient = true ↔
      MIN_TRADING_DAYS_REQUIRED ≤ (s.bars.filterMap (fun b => b.adjClose)).length) ∧
    ((compute_indicators_one s).data_sufficient = false →
      compute_indicators_one s = insufficient_record s) := by
  refine ⟨compute_one_sufficient_iff s, fun hfalse => ?_⟩
  by_cases h : (s.bars.filterMap (fun b => b.adjClose)).length < MIN_TRADING_DAYS_REQUIRED
  · exact compute_one_insufficient s h
  · have := (compute_one_sufficient_iff s).mpr (le_of_not_lt h)
    rw [this] at hfalse
    exact absurd hfalse (by simp)

set_option maxRecDepth 40000 in
/--
C4 (witness): the amended statement applied to the 300-row series with one
missing adjusted-close cell, whose `data_sufficient` flag is `False`.
-/
theorem data_sufficient_iff_adj_count_witness :
    ((compute_indicators_one gapSeries).data_sufficient = true ↔
      MIN_TRADING_DAYS_REQUIRED ≤ (gapSeries.bars.filterMap (fun b => b.adjClose)).length) ∧
    compute_indicators_one gapSeries = insufficient_record gapSeries :=
  ⟨(data_sufficient_iff_adj_count gapSeries).1,
   (data_sufficient_iff_adj_count gapSeries).2 (by decide)⟩

set_option maxRecDepth 40000 in
/--
C4 (counterexample): `gapSeries` has `trading_days = 300 ≥ 300`, yet the
emitted record carries `data_sufficient = False`, refuting the claimed
equivalence `dataSufficient ↔ tradingDays ≥ 300`.
-/
theorem data_sufficient_not_iff_trading_days :
    (compute_indicators_one gapSeries).trading_days = 300 ∧
    MIN_TRADING_DAYS_REQUIRED ≤ (compute_indicators_one gapSeries).trading_days ∧
    (compute_indicators_one gapSeries).data_sufficient = false := by decide

/-! ### C1 -/

/--
C1 (amended).  For a record with `data_sufficient = True`, the field
`price_<N>m_ago` (N ∈ {126, 189, 252} observations) is
`adj_close.iloc[-N]`, the adjusted close `N − 1` observations before the
latest one (index `len − N = (len − 1) − (N − 1)`), and it is always
defined, since a sufficient series has at least 300 ≥ N adjusted closes.
-/
theorem price_n_ago_fields (s : PriceSeries)
    (h : (compute_indicators_one s).data_sufficient = true) :
    ∃ adj : List ℚ, adj = s.bars.filterMap (fun b => b.adjClose) ∧
      (compute_indicators_one s).price_6m_ago = adj[adj.length - 1 - (TRADING_DAYS_6M - 1)]? ∧
      (compute_indicators_one s).price_9m_ago = adj[adj.length - 1 - (TRADING_DAYS_9M - 1)]? ∧
      (compute_indicators_one s).price_12m_ago = adj[adj.length - 1 - (TRADING_DAYS_12M - 1)]? ∧
      (∃ q, (compute_indicators_one s).price_6m_ago = some q) ∧
      (∃ q, (compute_indicators_one s).price_9m_ago = some q) ∧
      (∃ q, (compute_indicators_one s).price_12m_ago = some q) := by
  have hsuff : MIN_TRADING_DAYS_REQUIRED ≤ (s.bars.filterMap (fun b => b.adjClose)).length :=
    (compute_one_sufficient_iff s).mp h
  obtain ⟨h6, h9, h12⟩ := compute_one_price_ago_eq s hsuff
  have e6 : TRADING_DAYS_6M = 126 := rfl
  have e9 : TRADING_DAYS_9M = 189 := rfl
  have e12 : TRADING_DAYS_12M = 252 := rfl
  have em : MIN_TRADING_DAYS_REQUIRED = 300 := rfl
  have i6 : (s.bars.filterMap (fun b => b.adjClose)).length - TRADING_DAYS_6M =
      (s.bars.filterMap (fun b => b.adjClose)).length - 1 - (TRADING_DAYS_6M - 1) := by omega
  have i9 : (s.bars.filterMap (fun b => b.adjClose)).length - TRADING_DAYS_9M =
      (s.bars.filterMap (fun b => b.adjClose)).length - 1 - (TRADING_DAYS_9M - 1) := by omega
  have i12 : (s.bars.filterMap (fun b => b.adjClose)).length - TRADING_DAYS_12M =
      (s.bars.filterMap (fun b => b.adjClose)).length - 1 - (TRADING_DAYS_12M - 1) := by omega
  refine ⟨s.bars.filterMap (fun b => b.adjClose), rfl, ?_, ?_, ?_, ?_, ?_, ?_⟩
  · rw [h6]; simp only [priceAgo]; rw [if_pos (by omega), i6]
  · rw [h9]; simp only [priceAgo]; rw [if_pos (by omega), i9]
  · rw [h12]; simp only [priceAgo]; rw [if_pos (by omega), i12]
  · rw [h6]; simp only [priceAgo]; rw [if_pos (by omega)]
    exact ⟨_, List.getElem?_eq_getElem (by omega)⟩
  · rw [h9]; simp only [priceAgo]; rw [if_pos (by omega)]
    exact ⟨_, List.getElem?_eq_getElem (by omega)⟩
  · rw [h12]; simp only [priceAgo]; rw [if_pos (by omega)]
    exact ⟨_, List.getElem?_eq_getElem (by omega)⟩

set_option maxRecDepth 40000 in
/--
C1 (witness): the amended statement applied to the 300-bar ramp series.
-/
theorem price_n_ago_fields_witness :
    ∃ adj : List ℚ, adj = rampSeries.bars.filterMap (fun b => b.adjClose) ∧
      (compute_indicators_one rampSeries).price_6m_ago = adj[adj.length - 1 - (TRADING_DAYS_6M - 1)]? ∧
      (compute_indicators_one rampSeries).price_9m_ago = adj[adj.length - 1 - (TRADING_DAYS_9M - 1)]? ∧
      (compute_indicators_one rampSeries).price_12m_ago = adj[adj.length - 1 - (TRADING_DAYS_12M - 1)]? ∧
      (∃ q, (compute_indicators_one rampSeries).price_6m_ago = some q) ∧
      (∃ q, (compute_indicators_one rampSeries).price_9m_ago = some q) ∧
      (∃ q, (compute_indicators_one rampSeries).price_12m_ago = some q) :=
  price_n_ago_fields rampSeries (by decide)

set_option maxRecDepth 40000 in
/--
C1 (counterexample): on the 300-bar ramp series (adjusted closes
`0..299`), `price_6m_ago` is `some 174` — the close 125 observations
before the latest — while the adjusted close exactly 126 observations
before the latest is `some 173`; the claimed value is off by one.
-/
theorem price_6m_ago_off_by_one :
    (compute_indicators_one rampSeries).data_sufficient = true ∧
    (compute_indicators_one rampSeries).price_6m_ago = some 174 ∧
    (rampSeries.bars.filterMap (fun b => b.adjClose))[
      (rampSeries.bars.filterMap (fun b => b.adjClose)).length - 1 - TRADING_DAYS_6M]? =
        some 173 ∧
    (some (174 : ℚ) : Option ℚ) ≠ some 173 := by decide

/-! ### Shared facts about `evalGates` -/

/-- The gate-A column of an evaluated row. -/
theorem evalGates_gate_A_eq (useStd : Bool) (r : IndRecord) :
    (evalGates useStd r).gate_A_trend = (r.data_sufficient && gateA r) := rfl

/-- The gate-B column of an evaluated row. -/
theorem evalGates_gate_B_eq (useStd : Bool) (r : IndRecord) :
    (evalGates useStd r).gate_B_proximity = (r.data_sufficient && gateB r) := rfl

/-- The gate-C column of an evaluated row. -/
theorem evalGates_gate_C_eq (useStd : Bool) (r : IndRecord) :
    (evalGates useStd r).gate_C_consistency = (r.data_sufficient && gateC r) := rfl

/-- The gate-D column of an evaluated row. -/
theorem evalGates_gate_D_eq (useStd : Bool) (r : IndRecord) :
    (evalGates useStd r).gate_D_performance = (r.data_sufficient && gateD useStd r) := rfl

/-- The `gate_pass` column of an evaluated row. -/
theorem evalGates_pass_eq (useStd : Bool) (r : IndRecord) :
    (evalGates useStd r).gate_pass =
      (r.data_sufficient && ((r.data_sufficient && gateA r) &&
        (r.data_sufficient && gateB r) && (r.data_sufficient && gateC r) &&
        (r.data_sufficient && gateD useStd r))) := rfl

/-- The finalized reason string of an evaluated row. -/
theorem evalGates_reasons_eq (useStd : Bool) (r : IndRecord) :
    (evalGates useStd r).rejection_reasons =
      build_rejection_reasons useStd r (r.data_sufficient && gateA r)
        (r.data_sufficient && gateB r) (r.data_sufficient && gateC r)
        (r.data_sufficient && gateD useStd r) := rfl

/-- On an insufficient row every gate column and `gate_pass` stay `False`
and the reason is the pre-existing string, with the falsy-string fallback
of line 736. -/
theorem evalGates_insufficient (useStd : Bool) (r : IndRecord)
    (h : r.data_sufficient = false) :
    (evalGates useStd r).gate_A_trend = false ∧
    (evalGates useStd r).gate_B_proximity = false ∧
    (evalGates useStd r).gate_C_consistency = false ∧
    (evalGates useStd r).gate_D_performance = false ∧
    (evalGates useStd r).gate_pass = false ∧
    (evalGates useStd r).rejection_reasons =
      (if r.rejection_reasons = "" then "Insufficient data" else r.rejection_reasons) := by
  simp [evalGates, build_rejection_reasons, h]

/-! ### Shared string facts -/

/-- A string of length zero is the empty string. -/
theorem eq_empty_of_length_zero (a : String) (h : a.length = 0) : a = "" := by
  cases a with
  | mk data =>
    cases data with
    | nil => rfl
    | cons c cs => simp [String.length] at h

/-- Appending on the right preserves non-emptiness. -/
theorem append_ne_empty (a b : String) (h : a ≠ "") : a ++ b ≠ "" := by
  intro hc
  apply h
  have hlen := congrArg String.length hc
  simp only [String.length_append] at hlen
  have hz : String.length "" = 0 := rfl
  rw [hz] at hlen
  exact eq_empty_of_length_zero a (by omega)

/-- `joinSep` of a list with a non-empty head is non-empty. -/
theorem joinSep_cons_ne_empty (sep x : String) (xs : List String) (hx : x ≠ "") :
    joinSep sep (x :: xs) ≠ "" := by
  cases xs with
  | nil => simpa [joinSep] using hx
  | cons y t => exact append_ne_empty _ _ (append_ne_empty x sep hx)

/-- The gate-C clause is never the empty string. -/
theorem clause_C_ne_empty (r : IndRecord) : clause_C r ≠ "" := by
  unfold clause_C
  exact append_ne_empty _ _ (append_ne_empty _ _ (by decide))

/-- The gate-D clause is never the empty string. -/
theorem clause_D_ne_empty (useStd : Bool) (r : IndRecord) :
    clause_D useStd r ≠ "" := by
  unfold clause_D
  exact append_ne_empty _ _
    (append_ne_empty _ _ (append_ne_empty _ _ (append_ne_empty _ _ (by decide))))

/-! ### C5 -/

/-- A rejected insufficient record whose pre-existing reason is empty. -/
def emptyReasonRecord : IndRecord :=
  { ticker := "ER"
    current_price := none, ema100 := none, ema200 := none
    high_52w := none, within_25_pct_high := none, up_days_pct_6m := none
    one_year_return_unconventional := none, one_year_return_standard := none
    return_6m := none, return_9m := none, return_12m := none
    price_6m_ago := none, price_9m_ago := none, price_12m_ago := none
    trading_days := 10
    data_sufficient := false
    rejection_reasons := "" }

/-- A rejected insufficient record with the usual non-empty reason. -/
def shortHistoryRecord : IndRecord :=
  { ticker := "SH"
    current_price := none, ema100 := none, ema200 := none
    high_52w := none, within_25_pct_high := none, up_days_pct_6m := none
    one_year_return_unconventional := none, one_year_return_standard := none
    return_6m := none, return_9m := none, return_12m := none
    price_6m_ago := none, price_9m_ago := none, price_12m_ago := none
    trading_days := 200
    data_sufficient := false
    rejection_reasons := "Insufficient data (< 300 trading days)" }

/--
C5 (amended).  Every record processed by `apply_gatekeeper` with
`data_sufficient = False` ends in the rejected partition with all four
gate flags `False` and `gate_pass = False`; its pre-existing
rejection-reason string is retained unchanged whenever it is non-empty,
while an empty pre-existing reason is replaced by the fallback string
`"Insufficient data"`.
-/
theorem insufficient_rows_pass_through (records : List IndRecord) (useStd : Bool)
    (r : IndRecord) (hmem : r ∈ records) (h : r.data_sufficient = false) :
    evalGates useStd r ∈ (apply_gatekeeper records useStd).2 ∧
    (evalGates useStd r).gate_A_trend = false ∧
    (evalGates useStd r).gate_B_proximity = false ∧
    (evalGates useStd r).gate_C_consistency = false ∧
    (evalGates useStd r).gate_D_performance = false ∧
    (evalGates useStd r).gate_pass = false ∧
    (r.rejection_reasons ≠ "" →
      (evalGates useStd r).rejection_reasons = r.rejection_reasons) ∧
    (r.rejection_reasons = "" →
      (evalGates useStd r).rejection_reasons = "Insufficient data") := by
  obtain ⟨hA, hB, hC, hD, hp, hre⟩ := evalGates_insufficient useStd r h
  refine ⟨?_, hA, hB, hC, hD, hp, ?_, ?_⟩
  · simp only [apply_gatekeeper]
    apply List.mem_filter.mpr
    refine ⟨List.mem_map_of_mem _ hmem, ?_⟩
    simp [hp]
  · intro hne
    rw [hre, if_neg hne]
  · intro he
    rw [hre, if_pos he]

/--
C5 (witness): the amended statement applied to a one-record batch holding
the usual insufficient record, whose reason string is retained.
-/
theorem insufficient_rows_pass_through_witness :
    shortHistoryRecord ∈ [shortHistoryRecord] ∧
    shortHistoryRecord.data_sufficient = false ∧
    (evalGates false shortHistoryRecord ∈
        (apply_gatekeeper [shortHistoryRecord] false).2 ∧
      (evalGates false shortHistoryRecord).gate_A_trend = false ∧
      (evalGates false shortHistoryRecord).gate_B_proximity = false ∧
      (evalGates false shortHistoryRecord).gate_C_consistency = false ∧
      (evalGates false shortHistoryRecord).gate_D_performance = false ∧
      (evalGates false shortHistoryRecord).gate_pass = false ∧
      (shortHistoryRecord.rejection_reasons ≠ "" →
        (evalGates false shortHistoryRecord).rejection_reasons =
          shortHistoryRecord.rejection_reasons) ∧
      (shortHistoryRecord.rejection_reasons = "" →
        (evalGates false shortHistoryRecord).rejection_reasons =
          "Insufficient data")) :=
  ⟨by decide, by decide,
   insufficient_rows_pass_through [shortHistoryRecord] false shortHistoryRecord
     (by decide) (by decide)⟩

/--
C5 (counterexample): an insufficient record whose pre-existing reason is
the empty string does not keep it — `apply_gatekeeper` rewrites it to
`"Insufficient data"`, so the reason is not retained unchanged.
-/
theorem empty_reason_not_retained :
    emptyReasonRecord.data_sufficient = false ∧
    emptyReasonRecord.rejection_reasons = "" ∧
    ((apply_gatekeeper [emptyReasonRecord] false).2.map
      (fun g => g.rejection_reasons)) = ["Insufficient data"] ∧
    ("Insufficient data" : String) ≠ emptyReasonRecord.rejection_reasons := by decide

/-! ### C3 -/

/--
C3 (amended).  For every data-sufficient record the finalized
rejection-reason string is the `"; "`-join of one clause per failed gate
in the order A, B, C, D; the clauses for gates C and D embed the
offending numeric value, while the clauses for gates A and B state the
violated condition without embedding the record's numeric values; the
string is empty exactly when `gate_pass` is true; and records with
`data_sufficient = False` receive no gate clause — their string is the
pre-existing reason (with the `"Insufficient data"` fallback when the
pre-existing reason is empty).
-/
theorem rejection_reason_clause_structure (r : IndRecord) (useStd : Bool)
    (h : r.data_sufficient = true) :
    (evalGates useStd r).rejection_reasons = joinSep "; "
      ((if (evalGates useStd r).gate_A_trend then [] else [clause_A]) ++
       (if (evalGates useStd r).gate_B_proximity then [] else [clause_B]) ++
       (if (evalGates useStd r).gate_C_consistency then [] else [clause_C r]) ++
       (if (evalGates useStd r).gate_D_performance then [] else [clause_D useStd r])) ∧
    ((evalGates useStd r).rejection_reasons = "" ↔
      (evalGates useStd r).gate_pass = true) ∧
    (∀ r2 : IndRecord, r2.data_sufficient = false →
      (evalGates useStd r2).rejection_reasons =
        (if r2.rejection_reasons = "" then "Insufficient data"
         else r2.rejection_reasons)) := by
  refine ⟨?_, ?_, fun r2 h2 => (evalGates_insufficient useStd r2 h2).2.2.2.2.2⟩
  · rw [evalGates_reasons_eq, evalGates_gate_A_eq, evalGates_gate_B_eq,
      evalGates_gate_C_eq, evalGates_gate_D_eq]
    unfold build_rejection_reasons
    rw [if_neg (by simp [h])]
  · rw [evalGates_reasons_eq, evalGates_pass_eq]
    unfold build_rejection_reasons
    rw [if_neg (by simp [h])]
    by_cases hA : gateA r = true <;> by_cases hB : gateB r = true <;>
      by_cases hC : gateC r = true <;> by_cases hD : gateD useStd r = true <;>
      simp [h, hA, hB, hC, hD] <;>
      first
        | exact joinSep_cons_ne_empty _ _ _ (by decide)
        | exact joinSep_cons_ne_empty _ _ _ (clause_C_ne_empty r)
        | exact joinSep_cons_ne_empty _ _ _ (clause_D_ne_empty useStd r)
        | simp [joinSep]

/-- A data-sufficient record whose only failing gate is gate A; its
prices (7, 8, 6) contain digits that never occur in the gate-A clause. -/
def trendFailRecord : IndRecord :=
  { ticker := "TF"
    current_price := some 7, ema100 := some 8, ema200 := some 6
    high_52w := some 8, within_25_pct_high := some true, up_days_pct_6m := some 50
    one_year_return_unconventional := some 10, one_year_return_standard := some 10
    return_6m := some 5, return_9m := some 5, return_12m := some 10
    price_6m_ago := some 1, price_9m_ago := some 1, price_12m_ago := some 1
    trading_days := 400
    data_sufficient := true
    rejection_reasons := "" }

/--
C3 (witness): the amended statement applied to the gate-A-failing record.
-/
theorem rejection_reason_clause_structure_witness :
    trendFailRecord.data_sufficient = true ∧
    ((evalGates false trendFailRecord).rejection_reasons = joinSep "; "
      ((if (evalGates false trendFailRecord).gate_A_trend then [] else [clause_A]) ++
       (if (evalGates false trendFailRecord).gate_B_proximity then [] else [clause_B]) ++
       (if (evalGates false trendFailRecord).gate_C_consistency then []
        else [clause_C trendFailRecord]) ++
       (if (evalGates false trendFailRecord).gate_D_performance then []
        else [clause_D false trendFailRecord])) ∧
     ((evalGates false trendFailRecord).rejection_reasons = "" ↔
       (evalGates false trendFailRecord).gate_pass = true) ∧
     (∀ r2 : IndRecord, r2.data_sufficient = false →
       (evalGates false r2).rejection_reasons =
         (if r2.rejection_reasons = "" then "Insufficient data"
          else r2.rejection_reasons))) :=
  ⟨rfl, rejection_reason_clause_structure trendFailRecord false rfl⟩

/--
C3 (counterexample): the record failing only gate A receives exactly the
fixed gate-A clause, which contains none of the digits of the offending
values (`current_price = 7`, `ema100 = 8`, `ema200 = 6`), so the clause
does not name the offending numeric value.
-/
theorem gate_A_clause_lacks_offending_value :
    trendFailRecord.data_sufficient = true ∧
    trendFailRecord.current_price = some 7 ∧
    trendFailRecord.ema100 = some 8 ∧
    trendFailRecord.ema200 = some 6 ∧
    (evalGates false trendFailRecord).gate_A_trend = false ∧
    (evalGates false trendFailRecord).gate_B_proximity = true ∧
    (evalGates false trendFailRecord).gate_C_consistency = true ∧
    (evalGates false trendFailRecord).gate_D_performance = true ∧
    (evalGates false trendFailRecord).rejection_reasons = clause_A ∧
    clause_A.data.contains '7' = false ∧
    clause_A.data.contains '8' = false ∧
    clause_A.data.contains '6' = false := by decide

/-! ### C7 -/

/--
C7.  Boundary behaviour of the gates on a data-sufficient record:
Gate B passes when `currentPrice` equals exactly `0.75 * high52w`
(equality passes, through the `within_25_pct_high` flag as computed by
`compute_indicators`, `current >= 0.75 * high`); Gate C fails when
`upDaysPct6m` equals exactly `40.0` (the comparison is strict); Gate D
passes when the selected one-year return equals exactly `6.5`
(equality passes).
-/
theorem gate_boundary_cases (r : IndRecord) (useStd : Bool) (c hi u sel : ℚ)
    (h : r.data_sufficient = true) :
    (r.within_25_pct_high = some (within25 c hi) →
      c = PROXIMITY_TO_HIGH_THRESHOLD * hi →
      (evalGates useStd r).gate_B_proximity = true) ∧
    (r.up_days_pct_6m = some u → u = UP_DAYS_PCT_THRESHOLD →
      (evalGates useStd r).gate_C_consistency = false) ∧
    (selected_return useStd r = some sel → sel = ONE_YEAR_RETURN_THRESHOLD →
      (evalGates useStd r).gate_D_performance = true) := by
  refine ⟨fun hw hc => ?_, fun hu he => ?_, fun hs he => ?_⟩
  · simp [evalGates_gate_B_eq, h, gateB, hw, astype_bool, within25, hc]
  · simp [evalGates_gate_C_eq, h, gateC, hu, optGtC, he]
  · simp [evalGates_gate_D_eq, h, gateD, hs, optGeC, he]

/-- A data-sufficient record sitting exactly on all three gate
boundaries: price at 75% of the 52-week high, up-days share exactly 40%,
selected return exactly 6.5%. -/
def boundaryRecord : IndRecord :=
  { ticker := "BD"
    current_price := some (PROXIMITY_TO_HIGH_THRESHOLD * 100)
    ema100 := some 1, ema200 := some 1
    high_52w := some 100
    within_25_pct_high := some (within25 (PROXIMITY_TO_HIGH_THRESHOLD * 100) 100)
    up_days_pct_6m := some UP_DAYS_PCT_THRESHOLD
    one_year_return_unconventional := some ONE_YEAR_RETURN_THRESHOLD
    one_year_return_standard := some ONE_YEAR_RETURN_THRESHOLD
    return_6m := some 1, return_9m := some 1, return_12m := some 1
    price_6m_ago := some 1, price_9m_ago := some 1, price_12m_ago := some 1
    trading_days := 400
    data_sufficient := true
    rejection_reasons := "" }

/--
C7 (witness): on the boundary record, Gate B is `True`, Gate C is
`False`, and Gate D is `True`.
-/
theorem gate_boundary_cases_witness :
    (evalGates false boundaryRecord).gate_B_proximity = true ∧
    (evalGates false boundaryRecord).gate_C_consistency = false ∧
    (evalGates false boundaryRecord).gate_D_performance = true :=
  ⟨(gate_boundary_cases boundaryRecord false (PROXIMITY_TO_HIGH_THRESHOLD * 100) 100
      UP_DAYS_PCT_THRESHOLD ONE_YEAR_RETURN_THRESHOLD rfl).1 rfl rfl,
   (gate_boundary_cases boundaryRecord false (PROXIMITY_TO_HIGH_THRESHOLD * 100) 100
      UP_DAYS_PCT_THRESHOLD ONE_YEAR_RETURN_THRESHOLD rfl).2.1 rfl rfl,
   (gate_boundary_cases boundaryRecord false (PROXIMITY_TO_HIGH_THRESHOLD * 100) 100
      UP_DAYS_PCT_THRESHOLD ONE_YEAR_RETURN_THRESHOLD rfl).2.2 rfl rfl⟩

/-! ### Shared facts about the ranker -/

/-- Dropping the rank columns of the annotated rows recovers the input. -/
theorem annotate_map_toShortRow (S : List ShortRow) :
    (annotate S).map (fun r => r.toShortRow) = S := by
  rw [annotate, List.map_map]
  have h : ∀ s ∈ S, ((fun r => r.toShortRow) ∘ addRanks S) s = s := fun s _ => rfl
  rw [List.map_congr_left h]
  exact List.map_id' S

/-- The number of annotated rows equals the number of input rows. -/
theorem length_annotate (S : List ShortRow) : (annotate S).length = S.length := by
  simp [annotate]

/-- Every annotated row is its own `ShortRow` projection re-annotated. -/
theorem mem_annotate (S : List ShortRow) (r : RankedRow) (h : r ∈ annotate S) :
    r = addRanks S r.toShortRow := by
  obtain ⟨s, _, rfl⟩ := List.mem_map.mp h
  rfl

/-- Competition ranks agree on lists with the same value multiset. -/
theorem rankMinDesc_perm (v w : List ℚ) (hp : v.Perm w) (x : ℚ) :
    rankMinDesc v x = rankMinDesc w x := by
  unfold rankMinDesc
  rw [hp.countP_eq]

/-- The rank columns a row receives depend only on the multiset of
shortlist rows. -/
theorem addRanks_perm (S T : List ShortRow) (hp : S.Perm T) (r : ShortRow) :
    addRanks S r = addRanks T r := by
  unfold addRanks
  rw [rankMinDesc_perm (S.map (fun s => s.return_6m)) (T.map (fun s => s.return_6m))
      (hp.map _),
    rankMinDesc_perm (S.map (fun s => s.return_9m)) (T.map (fun s => s.return_9m))
      (hp.map _),
    rankMinDesc_perm (S.map (fun s => s.return_12m)) (T.map (fun s => s.return_12m))
      (hp.map _)]

/-- Filtering an ordered insertion on a sort-key class: the inserted row
lands in front of its own class (every row it is placed behind is
strictly smaller, hence in another class). -/
theorem filter_key_orderedInsert (K : ℚ ×ₗ (ℚ ×ₗ ℚ)) (x : RankedRow)
    (l : List RankedRow) :
    (l.orderedInsert rowLe x).filter (fun r => decide (sortKey r = K)) =
      if sortKey x = K then x :: l.filter (fun r => decide (sortKey r = K))
      else l.filter (fun r => decide (sortKey r = K)) := by
  induction l with
  | nil =>
      by_cases hx : sortKey x = K <;> simp [List.orderedInsert, List.filter_cons, hx]
  | cons y ys ih =>
      by_cases hxy : rowLe x y
      · rw [List.orderedInsert, if_pos hxy]
        by_cases hx : sortKey x = K <;> simp [List.filter_cons, hx]
      · rw [List.orderedInsert, if_neg hxy]
        by_cases hy : sortKey y = K
        · by_cases hx : sortKey x = K
          · exact absurd (show rowLe x y from le_of_eq (hx.trans hy.symm)) hxy
          · simp [List.filter_cons, hx, hy, ih]
        · by_cases hx : sortKey x = K <;> simp [List.filter_cons, hx, hy, ih]

/-- Stability of the sort: the rows of any one sort-key class come out in
exactly their input order. -/
theorem filter_key_insertionSort (K : ℚ ×ₗ (ℚ ×ₗ ℚ)) (l : List RankedRow) :
    (l.insertionSort rowLe).filter (fun r => decide (sortKey r = K)) =
      l.filter (fun r => decide (sortKey r = K)) := by
  induction l with
  | nil => rfl
  | cons x xs ih =>
      rw [List.insertionSort, filter_key_orderedInsert, List.filter_cons]
      by_cases hx : sortKey x = K <;> simp [hx, ih]

/-- Concrete shortlist row: strong 6-month, middling 12-month return. -/
def Xr : ShortRow := { ticker := "X", return_6m := 10, return_9m := 0, return_12m := 5 }

/-- Concrete shortlist row: weak 6-month, strong 12-month return. -/
def Yr : ShortRow := { ticker := "Y", return_6m := 1, return_9m := 0, return_12m := 6 }

/-- Concrete shortlist row beating `Yr` on the 6-month return only. -/
def R1r : ShortRow := { ticker := "R1", return_6m := 9, return_9m := 0, return_12m := 0 }

/-- Concrete shortlist row beating `Yr` on the 6-month return only. -/
def R2r : ShortRow := { ticker := "R2", return_6m := 8, return_9m := 0, return_12m := 0 }

/-! ### C2 -/

/--
C2.  For a non-empty shortlist and `topN ≥ 1`, `rank_and_select` returns
the first `topN` entries of a stable sort of the annotated rows: the
sorted list is ordered by the lexicographic key of `rowLe` (`final_rank`
ascending, then `return_12m` descending, then `return_6m` descending),
it is a permutation of the annotated input, and every sort-key class
keeps its original relative input order (stable sort); the returned list
is the `topN`-prefix of that sorted list.
-/
theorem rank_and_select_sorted_stable (S : List ShortRow) (n : ℤ)
    (hS : S ≠ []) (hn : 1 ≤ n) :
    ∃ ranked : List RankedRow,
      rank_and_select S n = Sum.inr (ranked.take n.toNat) ∧
      List.Sorted rowLe ranked ∧
      ranked.Perm (annotate S) ∧
      (∀ K, ranked.filter (fun r => decide (sortKey r = K)) =
        (annotate S).filter (fun r => decide (sortKey r = K))) := by
  refine ⟨(annotate S).insertionSort rowLe, ?_, List.sorted_insertionSort rowLe _,
    List.perm_insertionSort rowLe _, fun K => filter_key_insertionSort K _⟩
  unfold rank_and_select
  rw [if_neg (by simpa [List.length_eq_zero] using hS)]
  unfold df_head
  rw [if_pos (by omega)]

/--
C2 (witness): the statement applied to the two-row shortlist
`[Xr, Yr]` with `topN = 1`.
-/
theorem rank_and_select_sorted_stable_witness :
    ([Xr, Yr] : List ShortRow) ≠ [] ∧ (1 : ℤ) ≤ 1 ∧
    (∃ ranked : List RankedRow,
      rank_and_select [Xr, Yr] 1 = Sum.inr (ranked.take (1 : ℤ).toNat) ∧
      List.Sorted rowLe ranked ∧
      ranked.Perm (annotate [Xr, Yr]) ∧
      (∀ K, ranked.filter (fun r => decide (sortKey r = K)) =
        (annotate [Xr, Yr]).filter (fun r => decide (sortKey r = K)))) :=
  ⟨by decide, by decide, rank_and_select_sorted_stable [Xr, Yr] 1 (by decide) (by decide)⟩

/-! ### C10 -/

/--
C10.  An empty shortlist is returned unchanged as the rank-column-free
frame (`Sum.inl`, no `rank_6m`/`rank_9m`/`rank_12m`/`final_rank`
columns ever added), while every non-empty shortlist yields a ranked
frame (`Sum.inr`) whose rows carry the four ranking columns.
-/
theorem rank_and_select_empty_passthrough (n : ℤ) :
    rank_and_select ([] : List ShortRow) n = Sum.inl [] ∧
    ∀ S : List ShortRow, S ≠ [] → ∃ out, rank_and_select S n = Sum.inr out := by
  constructor
  · rfl
  · intro S hS
    refine ⟨df_head n ((annotate S).insertionSort rowLe), ?_⟩
    unfold rank_and_select
    rw [if_neg (by simpa [List.length_eq_zero] using hS)]

/--
C10 (witness): the statement applied at `topN = 5`, with the non-empty
case instantiated on the one-row shortlist `[Xr]`.
-/
theorem rank_and_select_empty_passthrough_witness :
    (rank_and_select ([] : List ShortRow) 5 = Sum.inl [] ∧
     ∀ S : List ShortRow, S ≠ [] → ∃ out, rank_and_select S 5 = Sum.inr out) ∧
    ([Xr] : List ShortRow) ≠ [] ∧
    (∃ out, rank_and_select [Xr] 5 = Sum.inr out) :=
  ⟨rank_and_select_empty_passthrough 5, by decide,
   (rank_and_select_empty_passthrough 5).2 [Xr] (by decide)⟩

/-! ### C9 -/

/--
C9 (amended).  `rank_and_select` performs no `topN` validation: with
`topN < 1` on a non-empty shortlist it still returns normally, with
pandas `head(topN)` truncation of the ranked rows — the empty list for
`topN = 0`, and all but the last `|topN|` ranked rows for negative
`topN`.  No error is surfaced and the result is partial.
-/
theorem no_topn_validation (S : List ShortRow) (n : ℤ) (hS : S ≠ []) (hn : n < 1) :
    ∃ out, rank_and_select S n = Sum.inr out ∧
      (n = 0 → out = []) ∧
      (n < 0 → out = ((annotate S).insertionSort rowLe).take (S.length - (-n).toNat)) := by
  refine ⟨df_head n ((annotate S).insertionSort rowLe), ?_, fun h0 => ?_, fun hneg => ?_⟩
  · unfold rank_and_select
    rw [if_neg (by simpa [List.length_eq_zero] using hS)]
  · subst h0
    unfold df_head
    rw [if_pos le_rfl]
    simp
  · unfold df_head
    rw [if_neg (by omega), List.length_insertionSort, length_annotate]

/--
C9 (witness): the amended statement applied to the two-row shortlist
with `topN = 0`.
-/
theorem no_topn_validation_witness :
    ([Xr, Yr] : List ShortRow) ≠ [] ∧ (0 : ℤ) < 1 ∧
    (∃ out, rank_and_select [Xr, Yr] 0 = Sum.inr out ∧
      ((0 : ℤ) = 0 → out = []) ∧
      ((0 : ℤ) < 0 →
        out = ((annotate [Xr, Yr]).insertionSort rowLe).take
          ([Xr, Yr].length - (-(0 : ℤ)).toNat))) :=
  ⟨by decide, by decide, no_topn_validation [Xr, Yr] 0 (by decide) (by decide)⟩

/--
C9 (counterexample): with `topN = 0 < 1` on a non-empty shortlist,
`rank_and_select` surfaces no error — it returns normally, and returns
the empty (partial) result.
-/
theorem top_zero_returns_normally :
    ([Xr, Yr] : List ShortRow) ≠ [] ∧
    rank_and_select [Xr, Yr] 0 = Sum.inr [] := by
  refine ⟨by decide, ?_⟩
  unfold rank_and_select
  rw [if_neg (by decide)]
  unfold df_head
  rw [if_pos (by decide)]
  rfl

/-! ### C6 -/

/-- A shortlist row with its 9-month return zeroed out. -/
def strip9 (r : ShortRow) : ShortRow := { r with return_9m := 0 }

/-- A ranked row with its 9-month data (return and rank) zeroed out. -/
def strip9R (r : RankedRow) : RankedRow :=
  { toShortRow := strip9 r.toShortRow
    rank_6m := r.rank_6m
    rank_9m := 0
    rank_12m := r.rank_12m
    final_rank := r.final_rank }

/-- A `rank_and_select` result with all 9-month data zeroed out. -/
def strip9Out : List ShortRow ⊕ List RankedRow → List ShortRow ⊕ List RankedRow
  | Sum.inl l => Sum.inl (l.map strip9)
  | Sum.inr l => Sum.inr (l.map strip9R)

/-- The 9-month-free part of an annotated row, as a function of the
9-month-free data alone. -/
def rankStripped (L : List ShortRow) (s : ShortRow) : RankedRow :=
  { toShortRow := s
    rank_6m := rankMinDesc (L.map (fun x => x.return_6m)) s.return_6m
    rank_9m := 0
    rank_12m := rankMinDesc (L.map (fun x => x.return_12m)) s.return_12m
    final_rank := rankMinDesc (L.map (fun x => x.return_6m)) s.return_6m +
      rankMinDesc (L.map (fun x => x.return_12m)) s.return_12m }

/-- Stripping the 9-month return leaves the 6-month column unchanged. -/
theorem map_return_6m_strip9 (S : List ShortRow) :
    (S.map strip9).map (fun x => x.return_6m) = S.map (fun x => x.return_6m) := by
  rw [List.map_map]
  exact List.map_congr_left (fun s _ => rfl)

/-- Stripping the 9-month return leaves the 12-month column unchanged. -/
theorem map_return_12m_strip9 (S : List ShortRow) :
    (S.map strip9).map (fun x => x.return_12m) = S.map (fun x => x.return_12m) := by
  rw [List.map_map]
  exact List.map_congr_left (fun s _ => rfl)

/-- Stripping does not change the 6-month return of a row. -/
theorem strip9_return_6m (s : ShortRow) : (strip9 s).return_6m = s.return_6m := rfl

/-- Stripping does not change the 12-month return of a row. -/
theorem strip9_return_12m (s : ShortRow) : (strip9 s).return_12m = s.return_12m := rfl

/-- The 9-month-stripped annotated row is a function of the
9-month-stripped inputs. -/
theorem strip9R_addRanks (S : List ShortRow) (s : ShortRow) :
    strip9R (addRanks S s) = rankStripped (S.map strip9) (strip9 s) := by
  unfold strip9R addRanks rankStripped
  rw [map_return_6m_strip9, map_return_12m_strip9]
  simp only [strip9_return_6m, strip9_return_12m]
  congr 1
  ring

/-- `head` commutes with a row-wise map. -/
theorem df_head_map (n : ℤ) (l : List RankedRow) (f : RankedRow → RankedRow) :
    (df_head n l).map f = df_head n (l.map f) := by
  unfold df_head
  split <;> simp [List.map_take]

/-- The sort comparator reads none of the 9-month data. -/
theorem rowLe_strip9R (a b : RankedRow) : rowLe a b ↔ rowLe (strip9R a) (strip9R b) :=
  Iff.rfl

/-- The 9-month-stripped image of the annotated rows is a function of the
9-month-stripped shortlist. -/
theorem annotate_strip_congr (S T : List ShortRow)
    (hmap : S.map strip9 = T.map strip9) :
    (annotate S).map strip9R = (annotate T).map strip9R := by
  have hS : (annotate S).map strip9R =
      (S.map strip9).map (rankStripped (S.map strip9)) := by
    rw [annotate, List.map_map, List.map_map]
    exact List.map_congr_left (fun s _ => strip9R_addRanks S s)
  have hT : (annotate T).map strip9R =
      (T.map strip9).map (rankStripped (T.map strip9)) := by
    rw [annotate, List.map_map, List.map_map]
    exact List.map_congr_left (fun s _ => strip9R_addRanks T s)
  rw [hS, hT, hmap]

/--
C6.  On a non-empty shortlist every output row of `rank_and_select`
carries `rank_6m = 1 + #{rows with strictly greater return_6m}`
(competition ranking, ties sharing the lower rank number), `rank_9m` and
`rank_12m` computed identically over their returns, and
`final_rank = rank_6m + rank_12m`; and the 9-month column never affects
the result: two shortlists that agree except for their `return_9m`
values produce outputs that agree except for their 9-month columns.
-/
theorem competition_ranks_and_9m_ignored (S T : List ShortRow) (n : ℤ)
    (hS : S ≠ []) (hmap : S.map strip9 = T.map strip9) :
    (∃ out : List RankedRow, rank_and_select S n = Sum.inr out ∧
      ∀ r ∈ out,
        r.rank_6m =
          1 + ((S.countP (fun s => decide (r.return_6m < s.return_6m)) : ℕ) : ℚ) ∧
        r.rank_9m =
          1 + ((S.countP (fun s => decide (r.return_9m < s.return_9m)) : ℕ) : ℚ) ∧
        r.rank_12m =
          1 + ((S.countP (fun s => decide (r.return_12m < s.return_12m)) : ℕ) : ℚ) ∧
        r.final_rank = r.rank_6m + r.rank_12m) ∧
    strip9Out (rank_and_select S n) = strip9Out (rank_and_select T n) := by
  constructor
  · refine ⟨df_head n ((annotate S).insertionSort rowLe), ?_, ?_⟩
    · unfold rank_and_select
      rw [if_neg (by simpa [List.length_eq_zero] using hS)]
    · intro r hr
      have hr1 : r ∈ (annotate S).insertionSort rowLe := by
        unfold df_head at hr
        split at hr <;> exact List.mem_of_mem_take hr
      have hr2 : r ∈ annotate S := (List.mem_insertionSort rowLe).mp hr1
      have hre : r = addRanks S r.toShortRow := mem_annotate S r hr2
      refine ⟨?_, ?_, ?_, ?_⟩
      · conv_lhs => rw [hre]
        show rankMinDesc (S.map (fun s => s.return_6m)) r.toShortRow.return_6m = _
        unfold rankMinDesc
        rw [List.countP_map]
        rfl
      · conv_lhs => rw [hre]
        show rankMinDesc (S.map (fun s => s.return_9m)) r.toShortRow.return_9m = _
        unfold rankMinDesc
        rw [List.countP_map]
        rfl
      · conv_lhs => rw [hre]
        show rankMinDesc (S.map (fun s => s.return_12m)) r.toShortRow.return_12m = _
        unfold rankMinDesc
        rw [List.countP_map]
        rfl
      · conv_lhs => rw [hre]
        show rankMinDesc (S.map (fun s => s.return_6m)) r.toShortRow.return_6m +
            rankMinDesc (S.map (fun s => s.return_12m)) r.toShortRow.return_12m +
            0 * rankMinDesc (S.map (fun s => s.return_9m)) r.toShortRow.return_9m =
          r.rank_6m + r.rank_12m
        conv_rhs => rw [hre]
        show _ = rankMinDesc (S.map (fun s => s.return_6m)) r.toShortRow.return_6m +
          rankMinDesc (S.map (fun s => s.return_12m)) r.toShortRow.return_12m
        ring
  · have hT : T ≠ [] := by
      intro hTnil
      rw [hTnil] at hmap
      simp only [List.map_nil, List.map_eq_nil_iff] at hmap
      exact hS hmap
    unfold rank_and_select
    rw [if_neg (by simpa [List.length_eq_zero] using hS),
      if_neg (by simpa [List.length_eq_zero] using hT)]
    show Sum.inr ((df_head n ((annotate S).insertionSort rowLe)).map strip9R) =
      Sum.inr ((df_head n ((annotate T).insertionSort rowLe)).map strip9R)
    rw [df_head_map, df_head_map,
      List.map_insertionSort rowLe rowLe strip9R _ (fun a _ b _ => rowLe_strip9R a b),
      List.map_insertionSort rowLe rowLe strip9R _ (fun a _ b _ => rowLe_strip9R a b),
      annotate_strip_congr S T hmap]

/--
C6 (witness): the statement applied to the shortlist `[Xr, Yr]` compared
against itself.
-/
theorem competition_ranks_and_9m_ignored_witness :
    ([Xr, Yr] : List ShortRow) ≠ [] ∧
    ((∃ out : List RankedRow, rank_and_select [Xr, Yr] 2 = Sum.inr out ∧
      ∀ r ∈ out,
        r.rank_6m =
          1 + (([Xr, Yr].countP (fun s => decide (r.return_6m < s.return_6m)) : ℕ) : ℚ) ∧
        r.rank_9m =
          1 + (([Xr, Yr].countP (fun s => decide (r.return_9m < s.return_9m)) : ℕ) : ℚ) ∧
        r.rank_12m =
          1 + (([Xr, Yr].countP (fun s => decide (r.return_12m < s.return_12m)) : ℕ) : ℚ) ∧
        r.final_rank = r.rank_6m + r.rank_12m) ∧
     strip9Out (rank_and_select [Xr, Yr] 2) = strip9Out (rank_and_select [Xr, Yr] 2)) :=
  ⟨by decide, competition_ranks_and_9m_ignored [Xr, Yr] [Xr, Yr] 2 (by decide) rfl⟩

/-! ### C8 -/

/--
C8 (amended).  When `topN` does not truncate (`|S| ≤ topN`), feeding the
output of `rank_and_select` back into itself with the same `topN`
returns that output unchanged: the recomputed rank columns coincide with
the existing ones and the stable sort leaves the already-sorted rows in
place.  (When truncation does occur, the ranks are recomputed over the
surviving rows only and the output can change — see the counterexample.)
-/
theorem rank_and_select_idempotent_no_truncation (S : List ShortRow) (n : ℤ)
    (h : (S.length : ℤ) ≤ n) :
    reapply (rank_and_select S n) n = rank_and_select S n := by
  by_cases hS : S.length = 0
  · rw [List.length_eq_zero] at hS
    subst hS
    rfl
  · have h0 : (0 : ℤ) ≤ n := le_trans (Int.ofNat_nonneg _) h
    have hout : rank_and_select S n = Sum.inr ((annotate S).insertionSort rowLe) := by
      unfold rank_and_select
      rw [if_neg hS]
      unfold df_head
      rw [if_pos h0, List.take_of_length_le
        (by rw [List.length_insertionSort, length_annotate]; omega)]
    rw [hout]
    show rank_and_select
        (((annotate S).insertionSort rowLe).map (fun r => r.toShortRow)) n =
      Sum.inr ((annotate S).insertionSort rowLe)
    set L := (annotate S).insertionSort rowLe with hL
    have hperm : L.Perm (annotate S) := List.perm_insertionSort rowLe _
    have hM : (L.map (fun r => r.toShortRow)).Perm S := by
      have h1 := hperm.map (fun r => r.toShortRow)
      rwa [annotate_map_toShortRow] at h1
    have hMlen : (L.map (fun r => r.toShortRow)).length = S.length := hM.length_eq
    have hannM : annotate (L.map (fun r => r.toShortRow)) = L := by
      unfold annotate
      rw [List.map_map]
      have hx : ∀ r ∈ L,
          (addRanks (L.map (fun x => x.toShortRow)) ∘ (fun r => r.toShortRow)) r = r := by
        intro r hr
        have hr2 : r ∈ annotate S := hperm.mem_iff.mp hr
        have hre := mem_annotate S r hr2
        show addRanks (L.map (fun x => x.toShortRow)) r.toShortRow = r
        rw [addRanks_perm _ S hM]
        exact hre.symm
      rw [List.map_congr_left hx]
      exact List.map_id' L
    have hsorted : List.Sorted rowLe L := List.sorted_insertionSort rowLe (annotate S)
    unfold rank_and_select
    rw [if_neg (by rw [hMlen]; exact hS), hannM, hsorted.insertionSort_eq]
    unfold df_head
    rw [if_pos h0, List.take_of_length_le
      (by rw [hL, List.length_insertionSort, length_annotate]; omega)]

/--
C8 (witness): the amended statement applied to the two-row shortlist
with the non-truncating `topN = 5`.
-/
theorem rank_and_select_idempotent_witness :
    (([Xr, Yr] : List ShortRow).length : ℤ) ≤ 5 ∧
    reapply (rank_and_select [Xr, Yr] 5) 5 = rank_and_select [Xr, Yr] 5 :=
  ⟨by decide, rank_and_select_idempotent_no_truncation [Xr, Yr] 5 (by decide)⟩

/--
C8 (counterexample): with truncation the claim fails.  On the four-row
shortlist `[Xr, Yr, R1r, R2r]` with `topN = 2`, `rank_and_select`
returns the rows X then Y, but re-applying it to that output returns Y
then X: recomputing the ranks over the two surviving rows creates a
`final_rank` tie that the 12-month-return tie-break resolves the other
way round.
-/
theorem reapply_after_truncation_changes_output :
    reapply (rank_and_select [Xr, Yr, R1r, R2r] 2) 2 ≠
      rank_and_select [Xr, Yr, R1r, R2r] 2 := by
  norm_num [rank_and_select, reapply, annotate, addRanks, rankMinDesc, df_head, rowLe,
    sortKey, Prod.Lex.le_iff, Xr, Yr, R1r, R2r, List.countP_cons, List.countP_nil,
    (show ((2 : ℤ).toNat : ℕ) = 2 from rfl), List.take_succ_cons]

end Screener
